import Mathlib

/-
A shallow embedding of the opgl-gateway service: the error taxonomy, the
rate-limit middleware (internal/middleware/ratelimit.go), request validation
(internal/validation/validation.go), the service proxy error mapping
(internal/proxy/proxy.go), and the orchestration handlers
(internal/api/handlers.go), together with theorems about their behavior.
-/

namespace OpglGateway

/-- Error codes of the gateway's error taxonomy (internal/errors). -/
inductive ErrCode where
  | invalidRequestBody
  | missingFields
  | validationFailed
  | playerNotFound
  | matchesNotFound
  | dataServiceError
  | cortexServiceError
  | missingAPIKey
  | invalidAPIKey
  | rateLimitExceeded
  | unauthorized
  | invalidToken
  | internalError
  deriving DecidableEq, Repr

/-- The only error representation that crosses the gateway boundary. -/
structure APIError where
  code : ErrCode
  message : String
  httpStatus : Nat
  deriving DecidableEq, Repr

/-- Constructor mirroring Go's apierrors.NewAPIError(code, message, status). -/
def NewAPIError (code : ErrCode) (message : String) (httpStatus : Nat) : APIError :=
  ⟨code, message, httpStatus⟩

/-- Modelled from the spec: internal/errors/errors.go is not under src/;
per the taxonomy table, InternalError carries HTTP status 500. -/
def InternalError (message : String) : APIError :=
  ⟨.internalError, message, 500⟩

/-- Modelled from the spec: internal/errors/errors.go is not under src/;
per the taxonomy table, InvalidRequestBody carries HTTP status 400. -/
def InvalidRequestBody (message : String) : APIError :=
  ⟨.invalidRequestBody, message, 400⟩

/-- Modelled from the spec: internal/errors/errors.go is not under src/;
per the taxonomy table, MissingFields carries HTTP status 400. -/
def MissingFields (message : String) : APIError :=
  ⟨.missingFields, message, 400⟩

/-- Modelled from the spec: internal/errors/errors.go is not under src/;
per the taxonomy table, PlayerNotFound carries HTTP status 404 and its
message embeds the requested identity as name#tag. -/
def PlayerNotFound (gameName tagLine : String) : APIError :=
  ⟨.playerNotFound, "Player " ++ gameName ++ "#" ++ tagLine ++ " not found", 404⟩

/-- Modelled from the spec: internal/errors/errors.go is not under src/;
per the taxonomy table, MatchesNotFound carries HTTP status 404. -/
def MatchesNotFound (message : String) : APIError :=
  ⟨.matchesNotFound, message, 404⟩

/-- Modelled from the spec: internal/errors/errors.go is not under src/;
per the taxonomy table, DataServiceError carries HTTP status 502. -/
def DataServiceError (message : String) : APIError :=
  ⟨.dataServiceError, message, 502⟩

/-- Modelled from the spec: internal/errors/errors.go is not under src/;
per the taxonomy table, CortexServiceError carries HTTP status 502. -/
def CortexServiceError (message : String) : APIError :=
  ⟨.cortexServiceError, message, 502⟩

/-- checkRateLimitResponse from ratelimit.go: the per-request rate-limit
decision interpreted from the auth authority. Go ints are modelled as Int. -/
structure RateLimitDecision where
  allowed : Bool
  limit : Int
  remaining : Int
  reset : Int
  deriving DecidableEq, Repr

/-- Outcome of the single HTTP POST to the authority inside CheckRateLimit:
either the transport fails, or an HTTP response arrives with a status code
and a body whose decode as a decision either succeeds (some) or fails (none). -/
inductive AuthorityResult where
  | transportFailure
  | httpResponse (status : Nat) (decoded : Option RateLimitDecision)
  deriving DecidableEq, Repr

/-- CheckRateLimit from ratelimit.go: a non-200 status from the authority is
interpreted as the synthetic invalid-key decision (allowed=false, limit=0,
remaining=0, reset=now); transport and decode failures are Go errors. -/
def CheckRateLimit (now : Int) (result : AuthorityResult) :
    Except Unit RateLimitDecision :=
  match result with
  | .transportFailure => .error ()
  | .httpResponse status decoded =>
    if status ≠ 200 then
      .ok ⟨false, 0, 0, now⟩
    else
      match decoded with
      | some decision => .ok decision
      | none => .error ()

/-- The observable outcome of the rate-limit middleware on one request:
the response headers it set, and either some rejection APIError or none,
the latter meaning the request was passed to the next handler. -/
structure GateResult where
  headers : List (String × String)
  rejection : Option APIError
  deriving DecidableEq, Repr

/-- The retry-delay computation from RateLimitMiddleware in ratelimit.go:
retryAfter := reset - now; if retryAfter < 0 then retryAfter = 1. -/
def computeRetryAfter (reset now : Int) : Int :=
  let retryAfter := reset - now
  if retryAfter < 0 then 1 else retryAfter

/-- RateLimitMiddleware from ratelimit.go (required-key mode), as a function
of the current time, the X-API-Key header value (empty string when absent),
and the authority interaction's outcome. -/
def RateLimitMiddleware (now : Int) (apiKey : String)
    (authority : AuthorityResult) : GateResult :=
  if apiKey = "" then
    { headers := []
      rejection := some (NewAPIError .missingAPIKey
        "API key is required. Include X-API-Key header in your request." 401) }
  else
    match CheckRateLimit now authority with
    | .error _ =>
      { headers := []
        rejection := some (InternalError "Rate limit check failed") }
    | .ok d =>
      let hs := [("X-RateLimit-Limit", toString d.limit),
                 ("X-RateLimit-Remaining", toString d.remaining),
                 ("X-RateLimit-Reset", toString d.reset)]
      if d.limit = 0 then
        { headers := hs
          rejection := some (NewAPIError .invalidAPIKey
            "Invalid or inactive API key." 401) }
      else if d.allowed = false then
        let retryAfter := computeRetryAfter d.reset now
        { headers := hs ++ [("Retry-After", toString retryAfter)]
          rejection := some (NewAPIError .rateLimitExceeded
            ("Rate limit exceeded. Try again in " ++ toString retryAfter ++
              " seconds.") 429) }
      else
        { headers := hs, rejection := none }

/-- OptionalRateLimitMiddleware from ratelimit.go: an absent key admits the
request ungated; otherwise like the required-key middleware except that the
Retry-After header is set to the raw reset value and the 429 message is fixed. -/
def OptionalRateLimitMiddleware (now : Int) (apiKey : String)
    (authority : AuthorityResult) : GateResult :=
  if apiKey = "" then
    { headers := [], rejection := none }
  else
    match CheckRateLimit now authority with
    | .error _ =>
      { headers := []
        rejection := some (InternalError "Rate limit check failed") }
    | .ok d =>
      let hs := [("X-RateLimit-Limit", toString d.limit),
                 ("X-RateLimit-Remaining", toString d.remaining),
                 ("X-RateLimit-Reset", toString d.reset)]
      if d.limit = 0 then
        { headers := hs
          rejection := some (NewAPIError .invalidAPIKey
            "Invalid or inactive API key." 401) }
      else if d.allowed = false then
        { headers := hs ++ [("Retry-After", toString d.reset)]
          rejection := some (NewAPIError .rateLimitExceeded
            "Rate limit exceeded." 429) }
      else
        { headers := hs, rejection := none }

/-- Go's strings.ToLower as used on region codes: each character lowercased
independently (the ASCII simple mapping, which is what the fixed region set
exercises). -/
def toLowerString (s : String) : String :=
  String.mk (s.data.map Char.toLower)

/-- ValidRegions from validation.go, as the list of valid region codes. -/
def validRegionsList : List String :=
  ["na", "euw", "eune", "kr", "jp", "br", "lan", "las",
   "oce", "tr", "ru", "ph", "sg", "th", "tw", "vn"]

/-- A single field-level validation error (validation.go ValidationError). -/
structure ValidationError where
  field : String
  message : String
  deriving DecidableEq, Repr

/-- Go's AddError appends; the mutable ValidationResult accumulator is
modelled by passing the error list through each validator. -/
def AddError (result : List ValidationError) (field message : String) :
    List ValidationError :=
  result ++ [⟨field, message⟩]

/-- IsValid from validation.go: no errors accumulated. -/
def IsValid (result : List ValidationError) : Bool :=
  result.length = 0

/-- Character class of the Go regexp [a-zA-Z0-9 _] used for game names. -/
def isGameNameChar (c : Char) : Bool :=
  c.isAlphanum || c = ' ' || c = '_'

/-- Character class of the Go regexp [a-zA-Z0-9] used for tag lines. -/
def isTagLineChar (c : Char) : Bool :=
  c.isAlphanum

/-- Character class of the Go regexp [a-zA-Z0-9_-] used for PUUIDs. -/
def isPUUIDChar (c : Char) : Bool :=
  c.isAlphanum || c = '_' || c = '-'

/-- validateRegion from validation.go: required, then case-insensitive
membership in the fixed region set (comparison lowercases first). -/
def validateRegion (region : String) (result : List ValidationError) :
    List ValidationError :=
  if region = "" then
    AddError result "region" "region is required"
  else if validRegionsList.contains (toLowerString region) = false then
    AddError result "region"
      "invalid region. Valid regions: na, euw, eune, kr, jp, br, lan, las, oce, tr, ru, ph, sg, th, tw, vn"
  else
    result

/-- validateGameName from validation.go: required, length 3..16, charset
letters/digits/space/underscore (each check returns early on failure). -/
def validateGameName (gameName : String) (result : List ValidationError) :
    List ValidationError :=
  if gameName = "" then
    AddError result "gameName" "gameName is required"
  else if gameName.length < 3 then
    AddError result "gameName" "gameName must be at least 3 characters"
  else if gameName.length > 16 then
    AddError result "gameName" "gameName must be at most 16 characters"
  else if (gameName.toList.all isGameNameChar) = false then
    AddError result "gameName"
      "gameName can only contain letters, numbers, spaces, and underscores"
  else
    result

/-- validateTagLine from validation.go: required, length 3..5, alphanumeric. -/
def validateTagLine (tagLine : String) (result : List ValidationError) :
    List ValidationError :=
  if tagLine = "" then
    AddError result "tagLine" "tagLine is required"
  else if tagLine.length < 3 then
    AddError result "tagLine" "tagLine must be at least 3 characters"
  else if tagLine.length > 5 then
    AddError result "tagLine" "tagLine must be at most 5 characters"
  else if (tagLine.toList.all isTagLineChar) = false then
    AddError result "tagLine" "tagLine can only contain letters and numbers"
  else
    result

/-- validatePUUID from validation.go: required, exactly 78 characters,
charset letters/digits/hyphen/underscore. -/
def validatePUUID (puuid : String) (result : List ValidationError) :
    List ValidationError :=
  if puuid = "" then
    AddError result "puuid" "puuid is required when not using gameName and tagLine"
  else if puuid.length ≠ 78 then
    AddError result "puuid" "puuid must be 78 characters"
  else if (puuid.toList.all isPUUIDChar) = false then
    AddError result "puuid" "puuid contains invalid characters"
  else
    result

/-- validateCount from validation.go: 0 is allowed (caller defaults to 20),
negative is an error, above 100 is an error. -/
def validateCount (count : Int) (result : List ValidationError) :
    List ValidationError :=
  if count < 0 then
    AddError result "count" "count cannot be negative"
  else if count > 100 then
    AddError result "count" "count cannot exceed 100"
  else
    result

/-- SummonerRequest from validation.go / handlers.go. -/
structure SummonerRequest where
  region : String
  gameName : String
  tagLine : String
  deriving DecidableEq, Repr

/-- MatchRequest from validation.go / handlers.go. -/
structure MatchRequest where
  region : String
  gameName : String
  tagLine : String
  puuid : String
  count : Int
  deriving DecidableEq, Repr

/-- AnalyzeRequest from validation.go / handlers.go. -/
structure AnalyzeRequest where
  region : String
  gameName : String
  tagLine : String
  deriving DecidableEq, Repr

/-- ValidateSummonerRequest from validation.go. -/
def ValidateSummonerRequest (request : SummonerRequest) : List ValidationError :=
  validateTagLine request.tagLine
    (validateGameName request.gameName
      (validateRegion request.region []))

/-- ValidateMatchRequest from validation.go: region always; then either the
PUUID (when supplied) or gameName+tagLine; then count. -/
def ValidateMatchRequest (request : MatchRequest) : List ValidationError :=
  let afterRegion := validateRegion request.region []
  let afterIdentity :=
    if request.puuid ≠ "" then
      validatePUUID request.puuid afterRegion
    else
      validateTagLine request.tagLine
        (validateGameName request.gameName afterRegion)
  validateCount request.count afterIdentity

/-- ValidateAnalyzeRequest from validation.go. -/
def ValidateAnalyzeRequest (request : AnalyzeRequest) : List ValidationError :=
  validateTagLine request.tagLine
    (validateGameName request.gameName
      (validateRegion request.region []))

/-- NormalizeRegion from validation.go: lowercase for consistent API calls. -/
def NormalizeRegion (region : String) : String :=
  toLowerString region

/-- Whether an accumulated result contains an error for a given field. -/
def hasFieldError (field : String) (result : List ValidationError) : Bool :=
  result.any fun e => e.field = field

instance {ε α : Type} [DecidableEq ε] [DecidableEq α] : DecidableEq (Except ε α) :=
  fun a b =>
    match a, b with
    | .ok x, .ok y =>
      if h : x = y then .isTrue (by rw [h]) else .isFalse (by simp [h])
    | .error x, .error y =>
      if h : x = y then .isTrue (by rw [h]) else .isFalse (by simp [h])
    | .ok _, .error _ => .isFalse (by simp)
    | .error _, .ok _ => .isFalse (by simp)

/-- Modelled from the spec: internal/models/models.go is not under src/;
per the data model, a Summoner carries region, display name, tag, and the
backend-issued opaque identifier (PUUID). -/
structure Summoner where
  region : String
  gameName : String
  tagLine : String
  puuid : String
  deriving DecidableEq, Repr

/-- Modelled from the spec: internal/models/models.go is not under src/;
a Match is an opaque payload passed through unmodified. -/
structure Match where
  payload : String
  deriving DecidableEq, Repr

/-- Modelled from the spec: internal/models/models.go is not under src/;
an AnalysisResult is an opaque payload passed through unmodified. -/
structure AnalysisResult where
  payload : String
  deriving DecidableEq, Repr

/-- Outcome of one outbound HTTP POST made by the service proxy: transport
failure, or a response with status, raw body text, and the result of
decoding the body as the expected type (none on decode failure). -/
inductive HTTPOutcome (α : Type) where
  | transportFailure
  | response (status : Nat) (body : String) (decoded : Option α)
  deriving DecidableEq, Repr

/-- handleDataServiceError from proxy.go: 404 becomes PlayerNotFound for the
requested name#tag, 400 becomes InvalidRequestBody with the body text,
anything else becomes DataServiceError. -/
def handleDataServiceError (status : Nat) (body : String)
    (gameName tagLine : String) : APIError :=
  if status = 404 then
    PlayerNotFound gameName tagLine
  else if status = 400 then
    InvalidRequestBody body
  else
    DataServiceError ("Data service error: " ++ body)

/-- handleDataServiceErrorByPUUID from proxy.go: 404 becomes MatchesNotFound
(the identifier is already known valid), 400 becomes InvalidRequestBody,
anything else becomes DataServiceError. -/
def handleDataServiceErrorByPUUID (status : Nat) (body : String) : APIError :=
  if status = 404 then
    MatchesNotFound "No matches found for this player"
  else if status = 400 then
    InvalidRequestBody body
  else
    DataServiceError ("Data service error: " ++ body)

/-- handleCortexServiceError from proxy.go. -/
def handleCortexServiceError (status : Nat) (body : String) : APIError :=
  if status = 400 then
    InvalidRequestBody body
  else
    CortexServiceError ("Analysis service error: " ++ body)

/-- GetSummonerByRiotID from proxy.go, as a function of the outbound call's
outcome: transport failure maps to DataServiceError, non-200 goes through
handleDataServiceError, decode failure on a 200 maps to InternalError. -/
def GetSummonerByRiotID (outcome : HTTPOutcome Summoner)
    (gameName tagLine : String) : Except APIError Summoner :=
  match outcome with
  | .transportFailure => .error (DataServiceError "Unable to connect to data service")
  | .response status body decoded =>
    if status ≠ 200 then
      .error (handleDataServiceError status body gameName tagLine)
    else
      match decoded with
      | some summoner => .ok summoner
      | none => .error (InternalError "Failed to process summoner data")

/-- GetMatchesByRiotID from proxy.go: same error mapping as the summoner
lookup (404 becomes PlayerNotFound for the requested name#tag). -/
def GetMatchesByRiotID (outcome : HTTPOutcome (List Match))
    (gameName tagLine : String) : Except APIError (List Match) :=
  match outcome with
  | .transportFailure => .error (DataServiceError "Unable to connect to data service")
  | .response status body decoded =>
    if status ≠ 200 then
      .error (handleDataServiceError status body gameName tagLine)
    else
      match decoded with
      | some matchList => .ok matchList
      | none => .error (InternalError "Failed to process match data")

/-- GetMatchesByPUUID from proxy.go: the identifier-based variant, whose
non-200 statuses go through handleDataServiceErrorByPUUID. -/
def GetMatchesByPUUID (outcome : HTTPOutcome (List Match)) :
    Except APIError (List Match) :=
  match outcome with
  | .transportFailure => .error (DataServiceError "Unable to connect to data service")
  | .response status body decoded =>
    if status ≠ 200 then
      .error (handleDataServiceErrorByPUUID status body)
    else
      match decoded with
      | some matchList => .ok matchList
      | none => .error (InternalError "Failed to process match data")

/-- AnalyzePlayer from proxy.go: the cortex-service call. -/
def AnalyzePlayerProxy (outcome : HTTPOutcome AnalysisResult) :
    Except APIError AnalysisResult :=
  match outcome with
  | .transportFailure => .error (CortexServiceError "Unable to connect to analysis service")
  | .response status body decoded =>
    if status ≠ 200 then
      .error (handleCortexServiceError status body)
    else
      match decoded with
      | some analysis => .ok analysis
      | none => .error (InternalError "Failed to process analysis data")

/-- ServiceProxyInterface from proxy/interface.go: the capability the
handlers call, abstracted as response functions (live client or test double). -/
structure ServiceProxyOracle where
  summonerByRiotID : String → String → String → Except APIError Summoner
  matchesByRiotID : String → String → String → Int → Except APIError (List Match)
  matchesByPUUID : String → String → Int → Except APIError (List Match)
  analyze : Summoner → List Match → Except APIError AnalysisResult

/-- One outbound backend call issued by a handler, with the arguments the
handler passed. -/
inductive BackendCall where
  | summonerByRiotID (region gameName tagLine : String)
  | matchesByRiotID (region gameName tagLine : String) (count : Int)
  | matchesByPUUID (region puuid : String) (count : Int)
  | cortexAnalyze (summoner : Summoner) (matchList : List Match)
  deriving DecidableEq, Repr

/-- The body a handler writes: an error envelope or a JSON success payload. -/
inductive HandlerResponse where
  | failure (e : APIError)
  | summonerJSON (s : Summoner)
  | matchesJSON (matchList : List Match)
  | analysisJSON (a : AnalysisResult)
  deriving DecidableEq, Repr

/-- A handler execution: the backend calls it issued, in order, and the
response it wrote. -/
structure HandlerRun where
  calls : List BackendCall
  response : HandlerResponse
  deriving DecidableEq, Repr

/-- GetSummoner from handlers.go: decode the body (none models a JSON decode
failure), check the three fields for non-emptiness only, then forward the
raw values to the proxy; a proxy APIError is written unchanged. -/
def GetSummonerHandler (proxy : ServiceProxyOracle)
    (body : Option SummonerRequest) : HandlerRun :=
  match body with
  | none => ⟨[], .failure (InvalidRequestBody "Invalid JSON format")⟩
  | some req =>
    if req.region = "" ∨ req.gameName = "" ∨ req.tagLine = "" then
      ⟨[], .failure (MissingFields "region, gameName, and tagLine are required")⟩
    else
      match proxy.summonerByRiotID req.region req.gameName req.tagLine with
      | .error e =>
        ⟨[.summonerByRiotID req.region req.gameName req.tagLine], .failure e⟩
      | .ok s =>
        ⟨[.summonerByRiotID req.region req.gameName req.tagLine], .summonerJSON s⟩

/-- GetMatches from handlers.go: decode, default the count to 20 when not
positive, then the PUUID lookup when a PUUID is present (region required),
else the Riot-ID lookup (all three fields required). -/
def GetMatchesHandler (proxy : ServiceProxyOracle)
    (body : Option MatchRequest) : HandlerRun :=
  match body with
  | none => ⟨[], .failure (InvalidRequestBody "Invalid JSON format")⟩
  | some req =>
    let count := if req.count ≤ 0 then 20 else req.count
    if req.puuid ≠ "" then
      if req.region = "" then
        ⟨[], .failure (MissingFields "region is required when using puuid")⟩
      else
        match proxy.matchesByPUUID req.region req.puuid count with
        | .error e =>
          ⟨[.matchesByPUUID req.region req.puuid count], .failure e⟩
        | .ok matchList =>
          ⟨[.matchesByPUUID req.region req.puuid count], .matchesJSON matchList⟩
    else
      if req.region = "" ∨ req.gameName = "" ∨ req.tagLine = "" then
        ⟨[], .failure (MissingFields
          "region, gameName, and tagLine are required (or use region and puuid)")⟩
      else
        match proxy.matchesByRiotID req.region req.gameName req.tagLine count with
        | .error e =>
          ⟨[.matchesByRiotID req.region req.gameName req.tagLine count], .failure e⟩
        | .ok matchList =>
          ⟨[.matchesByRiotID req.region req.gameName req.tagLine count], .matchesJSON matchList⟩

/-- AnalyzePlayer from handlers.go: the three-step pipeline; step 2 uses the
PUUID from step 1's Summoner with a hard-coded count of 20; each step's
APIError is written unchanged and aborts the pipeline. -/
def AnalyzePlayerHandler (proxy : ServiceProxyOracle)
    (body : Option AnalyzeRequest) : HandlerRun :=
  match body with
  | none => ⟨[], .failure (InvalidRequestBody "Invalid JSON format")⟩
  | some req =>
    if req.region = "" ∨ req.gameName = "" ∨ req.tagLine = "" then
      ⟨[], .failure (MissingFields "region, gameName, and tagLine are required")⟩
    else
      let call1 := BackendCall.summonerByRiotID req.region req.gameName req.tagLine
      match proxy.summonerByRiotID req.region req.gameName req.tagLine with
      | .error e => ⟨[call1], .failure e⟩
      | .ok summoner =>
        let call2 := BackendCall.matchesByPUUID req.region summoner.puuid 20
        match proxy.matchesByPUUID req.region summoner.puuid 20 with
        | .error e => ⟨[call1, call2], .failure e⟩
        | .ok matchList =>
          let call3 := BackendCall.cortexAnalyze summoner matchList
          match proxy.analyze summoner matchList with
          | .error e => ⟨[call1, call2, call3], .failure e⟩
          | .ok analysis => ⟨[call1, call2, call3], .analysisJSON analysis⟩

/-- A deterministic test double for the proxy capability whose calls all
succeed, echoing its inputs into the Summoner it returns. -/
def testOracle : ServiceProxyOracle where
  summonerByRiotID := fun region gameName tagLine =>
    .ok ⟨region, gameName, tagLine, "PUUID-FROM-STEP-1"⟩
  matchesByRiotID := fun _ _ _ _ => .ok [⟨"match-1"⟩]
  matchesByPUUID := fun _ _ _ => .ok [⟨"match-1"⟩]
  analyze := fun _ _ => .ok ⟨"analysis-1"⟩

/-- A deterministic test double whose summoner lookup fails with
PlayerNotFound and whose other calls succeed. -/
def failingStep1Oracle : ServiceProxyOracle where
  summonerByRiotID := fun _ gameName tagLine =>
    .error (PlayerNotFound gameName tagLine)
  matchesByRiotID := fun _ _ _ _ => .ok [⟨"match-1"⟩]
  matchesByPUUID := fun _ _ _ => .ok [⟨"match-1"⟩]
  analyze := fun _ _ => .ok ⟨"analysis-1"⟩

/-- Unfolding equation for computeRetryAfter with its let binding reduced. -/
theorem computeRetryAfter_eq (reset now : Int) :
    computeRetryAfter reset now = if reset - now < 0 then 1 else reset - now :=
  rfl

/-- C1 (counterexample): at reset = now (computed delay exactly zero) the
required-key middleware rejects with RateLimitExceeded but sets Retry-After
to 0: the floor applies only to negative values, so Retry-After is not
always at least 1 as the claim states. -/
theorem rate_limit_retry_after_zero_cex :
    RateLimitMiddleware 100 "api-key" (.httpResponse 200 (some ⟨false, 5, 0, 100⟩)) =
      ⟨[("X-RateLimit-Limit", "5"), ("X-RateLimit-Remaining", "0"),
        ("X-RateLimit-Reset", "100"), ("Retry-After", "0")],
       some (NewAPIError .rateLimitExceeded
         "Rate limit exceeded. Try again in 0 seconds." 429)⟩ ∧
    computeRetryAfter 100 100 = 0 ∧ ¬ 1 ≤ computeRetryAfter 100 100 := by
  decide

/-- C1 (amended): for every gated request whose decision has allowed = false
and limit > 0, the middleware rejects with RateLimitExceeded (HTTP 429). In
the required-key middleware the Retry-After header is resetEpochSeconds
minus now, floored to 1 only when that difference is negative (zero is left
at zero), so Retry-After is always ≥ 0 but not always ≥ 1; in the optional
middleware Retry-After is the raw resetEpochSeconds value. -/
theorem rate_limit_exceeded_retry_after
    (now : Int) (apiKey : String) (authority : AuthorityResult)
    (d : RateLimitDecision)
    (hkey : apiKey ≠ "")
    (hchk : CheckRateLimit now authority = .ok d)
    (hallowed : d.allowed = false)
    (hlimit : 0 < d.limit) :
    (RateLimitMiddleware now apiKey authority).rejection =
      some (NewAPIError .rateLimitExceeded
        ("Rate limit exceeded. Try again in " ++
          toString (computeRetryAfter d.reset now) ++ " seconds.") 429) ∧
    ("Retry-After", toString (computeRetryAfter d.reset now)) ∈
      (RateLimitMiddleware now apiKey authority).headers ∧
    0 ≤ computeRetryAfter d.reset now ∧
    (d.reset - now < 0 → computeRetryAfter d.reset now = 1) ∧
    (0 ≤ d.reset - now → computeRetryAfter d.reset now = d.reset - now) ∧
    (OptionalRateLimitMiddleware now apiKey authority).rejection =
      some (NewAPIError .rateLimitExceeded "Rate limit exceeded." 429) ∧
    ("Retry-After", toString d.reset) ∈
      (OptionalRateLimitMiddleware now apiKey authority).headers := by
  have hne : ¬ d.limit = 0 := by omega
  refine ⟨?_, ?_, ?_, ?_, ?_, ?_, ?_⟩
  · simp [RateLimitMiddleware, hkey, hchk, hne, hallowed]
  · simp [RateLimitMiddleware, hkey, hchk, hne, hallowed]
  · rw [computeRetryAfter_eq]
    split <;> omega
  · intro h
    rw [computeRetryAfter_eq]
    split <;> omega
  · intro h
    rw [computeRetryAfter_eq]
    split <;> omega
  · simp [OptionalRateLimitMiddleware, hkey, hchk, hne, hallowed]
  · simp [OptionalRateLimitMiddleware, hkey, hchk, hne, hallowed]

/-- C1 (witness): the amended theorem at a concrete gated request with a
negative computed delay, where the floor to 1 applies. -/
theorem rate_limit_exceeded_retry_after_witness :
    ("k" : String) ≠ "" ∧
    CheckRateLimit 120 (.httpResponse 200 (some ⟨false, 5, 0, 100⟩)) =
      .ok ⟨false, 5, 0, 100⟩ ∧
    (RateLimitMiddleware 120 "k" (.httpResponse 200 (some ⟨false, 5, 0, 100⟩))).rejection =
      some (NewAPIError .rateLimitExceeded
        "Rate limit exceeded. Try again in 1 seconds." 429) :=
  ⟨by decide, by decide,
   by
    have h := rate_limit_exceeded_retry_after 120 "k"
      (.httpResponse 200 (some ⟨false, 5, 0, 100⟩)) ⟨false, 5, 0, 100⟩
      (by decide) (by decide) (by decide) (by decide)
    simpa using h.1⟩

/-- C2: for every gated request whose decision has limit = 0, the
required-key middleware rejects with InvalidAPIKey (HTTP 401), with no
condition on the decision's allowed flag. -/
theorem limit_zero_invalid_api_key
    (now : Int) (apiKey : String) (authority : AuthorityResult)
    (d : RateLimitDecision)
    (hkey : apiKey ≠ "")
    (hchk : CheckRateLimit now authority = .ok d)
    (hlimit : d.limit = 0) :
    (RateLimitMiddleware now apiKey authority).rejection =
      some (NewAPIError .invalidAPIKey "Invalid or inactive API key." 401) ∧
    (NewAPIError .invalidAPIKey "Invalid or inactive API key." 401).httpStatus = 401 := by
  constructor
  · simp [RateLimitMiddleware, hkey, hchk, hlimit]
  · rfl

/-- C2 (witness): a decision with allowed = true and limit = 0 is still
rejected as InvalidAPIKey. -/
theorem limit_zero_invalid_api_key_witness :
    ("k" : String) ≠ "" ∧
    CheckRateLimit 50 (.httpResponse 200 (some ⟨true, 0, 3, 99⟩)) =
      .ok ⟨true, 0, 3, 99⟩ ∧
    (RateLimitMiddleware 50 "k" (.httpResponse 200 (some ⟨true, 0, 3, 99⟩))).rejection =
      some (NewAPIError .invalidAPIKey "Invalid or inactive API key." 401) :=
  ⟨by decide, by decide,
   (limit_zero_invalid_api_key 50 "k" (.httpResponse 200 (some ⟨true, 0, 3, 99⟩))
     ⟨true, 0, 3, 99⟩ (by decide) (by decide) (by decide)).1⟩

/-- C3: the gate fails closed. With an API key present, a transport failure
of the authority call yields InternalError and the request is not admitted;
any non-200 authority status produces the synthetic invalid-key decision
(allowed=false, limit=0, remaining=0, reset=now), so the request is
rejected as InvalidAPIKey; in neither case is the next handler reached. -/
theorem rate_limit_fail_closed
    (now : Int) (apiKey : String) (hkey : apiKey ≠ "") :
    ((RateLimitMiddleware now apiKey .transportFailure).rejection =
       some (InternalError "Rate limit check failed") ∧
     (RateLimitMiddleware now apiKey .transportFailure).rejection ≠ none) ∧
    (∀ (status : Nat) (decoded : Option RateLimitDecision), status ≠ 200 →
       CheckRateLimit now (.httpResponse status decoded) =
         .ok ⟨false, 0, 0, now⟩ ∧
       (RateLimitMiddleware now apiKey (.httpResponse status decoded)).rejection =
         some (NewAPIError .invalidAPIKey "Invalid or inactive API key." 401) ∧
       (RateLimitMiddleware now apiKey (.httpResponse status decoded)).rejection ≠
         none) := by
  constructor
  · constructor
    · simp [RateLimitMiddleware, hkey, CheckRateLimit]
    · simp [RateLimitMiddleware, hkey, CheckRateLimit]
  · intro status decoded hstatus
    have hchk : CheckRateLimit now (.httpResponse status decoded) =
        .ok ⟨false, 0, 0, now⟩ := by
      simp [CheckRateLimit, hstatus]
    refine ⟨hchk, ?_, ?_⟩
    · simp [RateLimitMiddleware, hkey, hchk]
    · simp [RateLimitMiddleware, hkey, hchk]

/-- C3 (witness): the fail-closed theorem at a concrete key, time, and a
503 from the authority. -/
theorem rate_limit_fail_closed_witness :
    ("k" : String) ≠ "" ∧
    (RateLimitMiddleware 7 "k" .transportFailure).rejection =
      some (InternalError "Rate limit check failed") ∧
    CheckRateLimit 7 (.httpResponse 503 none) = .ok ⟨false, 0, 0, 7⟩ ∧
    (RateLimitMiddleware 7 "k" (.httpResponse 503 none)).rejection =
      some (NewAPIError .invalidAPIKey "Invalid or inactive API key." 401) :=
  ⟨by decide,
   (rate_limit_fail_closed 7 "k" (by decide)).1.1,
   ((rate_limit_fail_closed 7 "k" (by decide)).2 503 none (by decide)).1,
   ((rate_limit_fail_closed 7 "k" (by decide)).2 503 none (by decide)).2.1⟩

/-- C4 (counterexample): the uppercase region NA passes validation, and
NormalizeRegion would lowercase it, but the routed GetSummoner handler
forwards the region to the data-service call verbatim as NA, not as na: the
region is not normalized before use in the downstream backend call. -/
theorem region_not_normalized_downstream_cex :
    validateRegion "NA" [] = [] ∧
    ValidateSummonerRequest ⟨"NA", "abc", "abc"⟩ = [] ∧
    (GetSummonerHandler testOracle (some ⟨"NA", "abc", "abc"⟩)).calls =
      [.summonerByRiotID "NA" "abc" "abc"] ∧
    NormalizeRegion "NA" = "na" ∧
    ("NA" : String) ≠ "na" := by
  decide

/-- C4 (amended): region validation is case-insensitive — every non-empty
region string whose per-character lowercasing is in the fixed region set
validates, the comparison lowercasing first, and NormalizeRegion lowercases —
but the routed handlers pass the region to the downstream backend call
verbatim, without normalizing it first. -/
theorem region_case_insensitive_but_forwarded_raw :
    (∀ region : String, region ≠ "" →
       validRegionsList.contains (toLowerString region) = true →
       ∀ errs, validateRegion region errs = errs) ∧
    (∀ region : String, NormalizeRegion region = toLowerString region) ∧
    (∀ (proxy : ServiceProxyOracle) (req : SummonerRequest),
       req.region ≠ "" → req.gameName ≠ "" → req.tagLine ≠ "" →
       (GetSummonerHandler proxy (some req)).calls =
         [.summonerByRiotID req.region req.gameName req.tagLine]) := by
  refine ⟨?_, fun _ => rfl, ?_⟩
  · intro region hne hmem errs
    have hmem' : toLowerString region ∈ validRegionsList := by
      simpa using hmem
    simp [validateRegion, hne, hmem']
  · intro proxy req h1 h2 h3
    have hcond : ¬ (req.region = "" ∨ req.gameName = "" ∨ req.tagLine = "") := by
      simp [h1, h2, h3]
    simp only [GetSummonerHandler, if_neg hcond]
    cases proxy.summonerByRiotID req.region req.gameName req.tagLine <;> rfl

/-- C4 (witness): the amended theorem at region Na (validates, lowercases to
na) and at a concrete request forwarded with its raw region NA. -/
theorem region_case_insensitive_but_forwarded_raw_witness :
    (("Na" : String) ≠ "" ∧ validateRegion "Na" [] = []) ∧
    NormalizeRegion "Na" = "na" ∧
    (GetSummonerHandler testOracle (some ⟨"NA", "abc", "abc"⟩)).calls =
      [.summonerByRiotID "NA" "abc" "abc"] :=
  ⟨⟨by decide,
    region_case_insensitive_but_forwarded_raw.1 "Na" (by decide) (by decide) []⟩,
   by rw [region_case_insensitive_but_forwarded_raw.2.1 "Na"]; decide,
   region_case_insensitive_but_forwarded_raw.2.2 testOracle ⟨"NA", "abc", "abc"⟩
     (by decide) (by decide) (by decide)⟩

/-- C5: in the analyze pipeline, once step 1 resolves a Summoner, the second
backend call is the PUUID-based match fetch with the PUUID taken from step
1's result and a hard-coded count of 20, for every request (the analyze
request carries no count field at all). -/
theorem analyze_step2_uses_step1_puuid_and_count_20
    (proxy : ServiceProxyOracle) (req : AnalyzeRequest) (s : Summoner)
    (h1 : req.region ≠ "") (h2 : req.gameName ≠ "") (h3 : req.tagLine ≠ "")
    (hs : proxy.summonerByRiotID req.region req.gameName req.tagLine = .ok s) :
    (AnalyzePlayerHandler proxy (some req)).calls.take 2 =
      [.summonerByRiotID req.region req.gameName req.tagLine,
       .matchesByPUUID req.region s.puuid 20] := by
  have hcond : ¬ (req.region = "" ∨ req.gameName = "" ∨ req.tagLine = "") := by
    simp [h1, h2, h3]
  simp only [AnalyzePlayerHandler, if_neg hcond, hs]
  cases proxy.matchesByPUUID req.region s.puuid 20 with
  | error e => rfl
  | ok ms =>
    dsimp only
    cases proxy.analyze s ms <;> rfl

/-- C5 (witness): the step-2 theorem at a concrete request against the
all-succeeding test double. -/
theorem analyze_step2_uses_step1_puuid_and_count_20_witness :
    testOracle.summonerByRiotID "na" "abc" "tag1" =
      .ok ⟨"na", "abc", "tag1", "PUUID-FROM-STEP-1"⟩ ∧
    (AnalyzePlayerHandler testOracle (some ⟨"na", "abc", "tag1"⟩)).calls.take 2 =
      [.summonerByRiotID "na" "abc" "tag1",
       .matchesByPUUID "na" "PUUID-FROM-STEP-1" 20] :=
  ⟨by decide,
   analyze_step2_uses_step1_puuid_and_count_20 testOracle ⟨"na", "abc", "tag1"⟩
     ⟨"na", "abc", "tag1", "PUUID-FROM-STEP-1"⟩
     (by decide) (by decide) (by decide) (by decide)⟩

/-- C6: any step's failure aborts the analyze pipeline at once and the
failing step's APIError is written unchanged: a step-1 failure leaves
exactly one backend call (no matches or cortex call); a step-2 failure
leaves two; a step-3 failure leaves three; in each case the response is
exactly that step's error, with no retry, fallback, or partial result. -/
theorem analyze_failure_aborts_unchanged
    (proxy : ServiceProxyOracle) (req : AnalyzeRequest) (e : APIError)
    (h1 : req.region ≠ "") (h2 : req.gameName ≠ "") (h3 : req.tagLine ≠ "") :
    (proxy.summonerByRiotID req.region req.gameName req.tagLine = .error e →
       AnalyzePlayerHandler proxy (some req) =
         ⟨[.summonerByRiotID req.region req.gameName req.tagLine],
          .failure e⟩) ∧
    (∀ s, proxy.summonerByRiotID req.region req.gameName req.tagLine = .ok s →
       proxy.matchesByPUUID req.region s.puuid 20 = .error e →
       AnalyzePlayerHandler proxy (some req) =
         ⟨[.summonerByRiotID req.region req.gameName req.tagLine,
           .matchesByPUUID req.region s.puuid 20],
          .failure e⟩) ∧
    (∀ s ms, proxy.summonerByRiotID req.region req.gameName req.tagLine = .ok s →
       proxy.matchesByPUUID req.region s.puuid 20 = .ok ms →
       proxy.analyze s ms = .error e →
       AnalyzePlayerHandler proxy (some req) =
         ⟨[.summonerByRiotID req.region req.gameName req.tagLine,
           .matchesByPUUID req.region s.puuid 20,
           .cortexAnalyze s ms],
          .failure e⟩) := by
  have hcond : ¬ (req.region = "" ∨ req.gameName = "" ∨ req.tagLine = "") := by
    simp [h1, h2, h3]
  refine ⟨?_, ?_, ?_⟩
  · intro hs
    simp [AnalyzePlayerHandler, if_neg hcond, hs]
  · intro s hs hm
    simp [AnalyzePlayerHandler, if_neg hcond, hs, hm]
  · intro s ms hs hm ha
    simp [AnalyzePlayerHandler, if_neg hcond, hs, hm, ha]

/-- C6 (witness): a step-1 PlayerNotFound against the failing test double
reaches the client unchanged with no further backend call. -/
theorem analyze_failure_aborts_unchanged_witness :
    failingStep1Oracle.summonerByRiotID "na" "abc" "tag1" =
      .error (PlayerNotFound "abc" "tag1") ∧
    AnalyzePlayerHandler failingStep1Oracle (some ⟨"na", "abc", "tag1"⟩) =
      ⟨[.summonerByRiotID "na" "abc" "tag1"],
       .failure (PlayerNotFound "abc" "tag1")⟩ :=
  ⟨by decide,
   (analyze_failure_aborts_unchanged failingStep1Oracle ⟨"na", "abc", "tag1"⟩
     (PlayerNotFound "abc" "tag1") (by decide) (by decide) (by decide)).1
     (by decide)⟩

theorem hasFieldError_AddError_ne {f g : String} (h : g ≠ f)
    (errs : List ValidationError) (m : String) :
    hasFieldError f (AddError errs g m) = hasFieldError f errs := by
  simp [hasFieldError, AddError, h]

theorem hasFieldError_AddError_self (f : String)
    (errs : List ValidationError) (m : String) :
    hasFieldError f (AddError errs f m) = true := by
  simp [hasFieldError, AddError]

theorem hasFieldError_validateRegion_ne {f : String} (h : f ≠ "region")
    (r : String) (errs : List ValidationError) :
    hasFieldError f (validateRegion r errs) = hasFieldError f errs := by
  unfold validateRegion
  split_ifs <;> simp [hasFieldError_AddError_ne (Ne.symm h)]

theorem hasFieldError_validateGameName_ne {f : String} (h : f ≠ "gameName")
    (n : String) (errs : List ValidationError) :
    hasFieldError f (validateGameName n errs) = hasFieldError f errs := by
  unfold validateGameName
  split_ifs <;> simp [hasFieldError_AddError_ne (Ne.symm h)]

theorem hasFieldError_validateTagLine_ne {f : String} (h : f ≠ "tagLine")
    (t : String) (errs : List ValidationError) :
    hasFieldError f (validateTagLine t errs) = hasFieldError f errs := by
  unfold validateTagLine
  split_ifs <;> simp [hasFieldError_AddError_ne (Ne.symm h)]

theorem hasFieldError_validatePUUID_ne {f : String} (h : f ≠ "puuid")
    (p : String) (errs : List ValidationError) :
    hasFieldError f (validatePUUID p errs) = hasFieldError f errs := by
  unfold validatePUUID
  split_ifs <;> simp [hasFieldError_AddError_ne (Ne.symm h)]

theorem hasFieldError_validateCount_ne {f : String} (h : f ≠ "count")
    (c : Int) (errs : List ValidationError) :
    hasFieldError f (validateCount c errs) = hasFieldError f errs := by
  unfold validateCount
  split_ifs <;> simp [hasFieldError_AddError_ne (Ne.symm h)]

theorem hasFieldError_validateGameName_empty (errs : List ValidationError) :
    hasFieldError "gameName" (validateGameName "" errs) = true := by
  unfold validateGameName
  rw [if_pos rfl]
  exact hasFieldError_AddError_self _ _ _

theorem hasFieldError_validateTagLine_empty (errs : List ValidationError) :
    hasFieldError "tagLine" (validateTagLine "" errs) = true := by
  unfold validateTagLine
  rw [if_pos rfl]
  exact hasFieldError_AddError_self _ _ _

theorem hasFieldError_validateRegion_invalid {r : String}
    (h : r = "" ∨ validRegionsList.contains (toLowerString r) = false)
    (errs : List ValidationError) :
    hasFieldError "region" (validateRegion r errs) = true := by
  unfold validateRegion
  rcases h with h | h
  · rw [if_pos h]
    exact hasFieldError_AddError_self _ _ _
  · split_ifs <;> exact hasFieldError_AddError_self _ _ _

theorem hasFieldError_validateCount_count (c : Int) (errs : List ValidationError) :
    hasFieldError "count" (validateCount c errs) =
      (hasFieldError "count" errs || decide (c < 0) || decide (c > 100)) := by
  unfold validateCount
  split_ifs with h1 h2
  · simp [hasFieldError_AddError_self, h1]
  · simp [hasFieldError_AddError_self, h2]
  · simp [h1, h2]

/-- C7: match-request validation is an exclusive alternative on the identity
method. With a PUUID supplied, gameName and tagLine are never validated (no
error for either field can arise, even when both are empty or malformed);
with neither identity supplied, the result holds errors for gameName and
tagLine but none for puuid; and an invalid or missing region yields a region
error in every case. -/
theorem match_request_exclusive_alternative (req : MatchRequest) :
    (req.puuid ≠ "" →
       hasFieldError "gameName" (ValidateMatchRequest req) = false ∧
       hasFieldError "tagLine" (ValidateMatchRequest req) = false) ∧
    (req.puuid = "" → req.gameName = "" → req.tagLine = "" →
       hasFieldError "gameName" (ValidateMatchRequest req) = true ∧
       hasFieldError "tagLine" (ValidateMatchRequest req) = true ∧
       hasFieldError "puuid" (ValidateMatchRequest req) = false) ∧
    ((req.region = "" ∨
        validRegionsList.contains (toLowerString req.region) = false) →
       hasFieldError "region" (ValidateMatchRequest req) = true) := by
  refine ⟨?_, ?_, ?_⟩
  · intro hp
    simp only [ValidateMatchRequest, if_pos hp]
    constructor
    · rw [hasFieldError_validateCount_ne (by decide),
          hasFieldError_validatePUUID_ne (by decide),
          hasFieldError_validateRegion_ne (by decide)]
      rfl
    · rw [hasFieldError_validateCount_ne (by decide),
          hasFieldError_validatePUUID_ne (by decide),
          hasFieldError_validateRegion_ne (by decide)]
      rfl
  · intro hp hn ht
    have hp' : ¬ req.puuid ≠ "" := by simp [hp]
    simp only [ValidateMatchRequest, if_neg hp']
    refine ⟨?_, ?_, ?_⟩
    · rw [hasFieldError_validateCount_ne (by decide),
          hasFieldError_validateTagLine_ne (by decide), hn,
          hasFieldError_validateGameName_empty]
    · rw [hasFieldError_validateCount_ne (by decide), ht,
          hasFieldError_validateTagLine_empty]
    · rw [hasFieldError_validateCount_ne (by decide),
          hasFieldError_validateTagLine_ne (by decide),
          hasFieldError_validateGameName_ne (by decide),
          hasFieldError_validateRegion_ne (by decide)]
      rfl
  · intro hr
    by_cases hp : req.puuid ≠ ""
    · simp only [ValidateMatchRequest, if_pos hp]
      rw [hasFieldError_validateCount_ne (by decide),
          hasFieldError_validatePUUID_ne (by decide)]
      exact hasFieldError_validateRegion_invalid hr _
    · simp only [ValidateMatchRequest, if_neg hp]
      rw [hasFieldError_validateCount_ne (by decide),
          hasFieldError_validateTagLine_ne (by decide),
          hasFieldError_validateGameName_ne (by decide)]
      exact hasFieldError_validateRegion_invalid hr _

/-- C7 (witness): the exclusive-alternative theorem at concrete requests: a
PUUID-only request with empty name and tag carries no name or tag error; an
empty-identity request carries name and tag errors but no puuid error; a
bad-region request carries a region error. -/
theorem match_request_exclusive_alternative_witness :
    (hasFieldError "gameName" (ValidateMatchRequest ⟨"na", "", "", "P1", 0⟩) = false ∧
     hasFieldError "tagLine" (ValidateMatchRequest ⟨"na", "", "", "P1", 0⟩) = false) ∧
    (hasFieldError "gameName" (ValidateMatchRequest ⟨"na", "", "", "", 0⟩) = true ∧
     hasFieldError "tagLine" (ValidateMatchRequest ⟨"na", "", "", "", 0⟩) = true ∧
     hasFieldError "puuid" (ValidateMatchRequest ⟨"na", "", "", "", 0⟩) = false) ∧
    hasFieldError "region" (ValidateMatchRequest ⟨"zz", "abc", "abc", "", 0⟩) = true :=
  ⟨(match_request_exclusive_alternative ⟨"na", "", "", "P1", 0⟩).1 (by decide),
   (match_request_exclusive_alternative ⟨"na", "", "", "", 0⟩).2.1
     (by decide) (by decide) (by decide),
   (match_request_exclusive_alternative ⟨"zz", "abc", "abc", "", 0⟩).2.2
     (Or.inr (by decide))⟩

/-- C8: for every match request, the validation result carries a count error
exactly when the count is negative or above 100: so -1 (and any negative) is
invalid, 0 and 100 are valid, 101 (and anything above 100) is invalid. -/
theorem count_boundary (req : MatchRequest) :
    hasFieldError "count" (ValidateMatchRequest req) = true ↔
      (req.count < 0 ∨ req.count > 100) := by
  have hcnt : ∀ afterIdentity,
      hasFieldError "count" (validateCount req.count afterIdentity) = true ↔
        (hasFieldError "count" afterIdentity = true ∨
          (req.count < 0 ∨ req.count > 100)) := by
    intro afterIdentity
    rw [hasFieldError_validateCount_count]
    simp [or_assoc]
  by_cases hp : req.puuid ≠ ""
  · simp only [ValidateMatchRequest, if_pos hp]
    rw [hcnt]
    rw [hasFieldError_validatePUUID_ne (by decide),
        hasFieldError_validateRegion_ne (by decide)]
    simp [hasFieldError]
  · simp only [ValidateMatchRequest, if_neg hp]
    rw [hcnt]
    rw [hasFieldError_validateTagLine_ne (by decide),
        hasFieldError_validateGameName_ne (by decide),
        hasFieldError_validateRegion_ne (by decide)]
    simp [hasFieldError]

/-- C8 (witness): the boundary at -1, 0, 100 and 101 for a concrete request. -/
theorem count_boundary_witness :
    hasFieldError "count" (ValidateMatchRequest ⟨"na", "TestPlayer", "NA1", "", -1⟩) = true ∧
    hasFieldError "count" (ValidateMatchRequest ⟨"na", "TestPlayer", "NA1", "", 0⟩) ≠ true ∧
    hasFieldError "count" (ValidateMatchRequest ⟨"na", "TestPlayer", "NA1", "", 100⟩) ≠ true ∧
    hasFieldError "count" (ValidateMatchRequest ⟨"na", "TestPlayer", "NA1", "", 101⟩) = true :=
  ⟨(count_boundary ⟨"na", "TestPlayer", "NA1", "", -1⟩).mpr (Or.inl (by decide)),
   fun h => by
     have h2 := (count_boundary ⟨"na", "TestPlayer", "NA1", "", 0⟩).mp h
     simp at h2,
   fun h => by
     have h2 := (count_boundary ⟨"na", "TestPlayer", "NA1", "", 100⟩).mp h
     simp at h2,
   (count_boundary ⟨"na", "TestPlayer", "NA1", "", 101⟩).mpr (Or.inr (by decide))⟩

/-- C9: a 404 from the data service maps by identity method: the PUUID-based
match lookup yields MatchesNotFound (never PlayerNotFound), while the
Riot-ID-based summoner and match lookups yield PlayerNotFound carrying the
requested name and tag (message embeds name#tag), regardless of the body
text or any decoded payload. -/
theorem data_service_404_mapping
    (body gameName tagLine : String)
    (dm : Option (List Match)) (ds : Option Summoner) :
    GetMatchesByPUUID (.response 404 body dm) =
      .error (MatchesNotFound "No matches found for this player") ∧
    (MatchesNotFound "No matches found for this player").code = .matchesNotFound ∧
    (MatchesNotFound "No matches found for this player").code ≠ .playerNotFound ∧
    GetSummonerByRiotID (.response 404 body ds) gameName tagLine =
      .error (PlayerNotFound gameName tagLine) ∧
    GetMatchesByRiotID (.response 404 body dm) gameName tagLine =
      .error (PlayerNotFound gameName tagLine) ∧
    (PlayerNotFound gameName tagLine).message =
      "Player " ++ gameName ++ "#" ++ tagLine ++ " not found" := by
  refine ⟨?_, rfl, by decide, ?_, ?_, rfl⟩
  · simp [GetMatchesByPUUID, handleDataServiceErrorByPUUID]
  · simp [GetSummonerByRiotID, handleDataServiceError]
  · simp [GetMatchesByRiotID, handleDataServiceError]

/-- The property that a proxy capability never returns a ValidationFailed
error (as the live ServiceProxy never does). -/
def oracleNeverValidationFailed (proxy : ServiceProxyOracle) : Prop :=
  (∀ r n t e, proxy.summonerByRiotID r n t = .error e →
     e.code ≠ .validationFailed) ∧
  (∀ r n t c e, proxy.matchesByRiotID r n t c = .error e →
     e.code ≠ .validationFailed) ∧
  (∀ r p c e, proxy.matchesByPUUID r p c = .error e →
     e.code ≠ .validationFailed) ∧
  (∀ s ms e, proxy.analyze s ms = .error e → e.code ≠ .validationFailed)

/-- C10: the routed handlers check only field non-emptiness (answered with
MissingFields). Every request with non-empty required fields is forwarded to
the backend with its raw values, however malformed (invalid region,
out-of-range name or tag, a count above 100 forwarded verbatim), in all
three handlers including the analyze pipeline, and succeeds whenever the
backend succeeds; a non-positive count (negative included) is silently
replaced by the default 20 rather than rejected, while a positive count —
101 included — is forwarded unchanged; and against any proxy capability
that never returns ValidationFailed, no routed handler ever responds with a
ValidationFailed error. -/
theorem handlers_skip_validation :
    (∀ (proxy : ServiceProxyOracle) (req : SummonerRequest),
       req.region ≠ "" → req.gameName ≠ "" → req.tagLine ≠ "" →
       (GetSummonerHandler proxy (some req)).calls =
         [.summonerByRiotID req.region req.gameName req.tagLine] ∧
       ∀ s, proxy.summonerByRiotID req.region req.gameName req.tagLine = .ok s →
         (GetSummonerHandler proxy (some req)).response = .summonerJSON s) ∧
    (∀ (proxy : ServiceProxyOracle) (req : MatchRequest),
       req.puuid = "" → req.region ≠ "" → req.gameName ≠ "" → req.tagLine ≠ "" →
       (GetMatchesHandler proxy (some req)).calls =
         [.matchesByRiotID req.region req.gameName req.tagLine
            (if req.count ≤ 0 then 20 else req.count)] ∧
       (req.count < 0 →
         (GetMatchesHandler proxy (some req)).calls =
           [.matchesByRiotID req.region req.gameName req.tagLine 20]) ∧
       (0 < req.count →
         (GetMatchesHandler proxy (some req)).calls =
           [.matchesByRiotID req.region req.gameName req.tagLine req.count])) ∧
    (∀ (proxy : ServiceProxyOracle) (req : MatchRequest),
       req.puuid ≠ "" → req.region ≠ "" →
       (GetMatchesHandler proxy (some req)).calls =
         [.matchesByPUUID req.region req.puuid
            (if req.count ≤ 0 then 20 else req.count)] ∧
       (req.count < 0 →
         (GetMatchesHandler proxy (some req)).calls =
           [.matchesByPUUID req.region req.puuid 20]) ∧
       (0 < req.count →
         (GetMatchesHandler proxy (some req)).calls =
           [.matchesByPUUID req.region req.puuid req.count])) ∧
    (∀ (proxy : ServiceProxyOracle) (req : AnalyzeRequest),
       req.region ≠ "" → req.gameName ≠ "" → req.tagLine ≠ "" →
       (AnalyzePlayerHandler proxy (some req)).calls.head? =
         some (.summonerByRiotID req.region req.gameName req.tagLine) ∧
       ∀ s ms a,
         proxy.summonerByRiotID req.region req.gameName req.tagLine = .ok s →
         proxy.matchesByPUUID req.region s.puuid 20 = .ok ms →
         proxy.analyze s ms = .ok a →
         (AnalyzePlayerHandler proxy (some req)).response = .analysisJSON a) ∧
    (∀ proxy, oracleNeverValidationFailed proxy →
       ∀ e,
         (∀ b, (GetSummonerHandler proxy b).response = .failure e →
            e.code ≠ .validationFailed) ∧
         (∀ b, (GetMatchesHandler proxy b).response = .failure e →
            e.code ≠ .validationFailed) ∧
         (∀ b, (AnalyzePlayerHandler proxy b).response = .failure e →
            e.code ≠ .validationFailed)) ∧
    (∀ (proxy : ServiceProxyOracle) (req : SummonerRequest),
       (req.region = "" ∨ req.gameName = "" ∨ req.tagLine = "") →
       GetSummonerHandler proxy (some req) =
         ⟨[], .failure
           (MissingFields "region, gameName, and tagLine are required")⟩) := by
  refine ⟨?_, ?_, ?_, ?_, ?_, ?_⟩
  · intro proxy req h1 h2 h3
    have hcond : ¬ (req.region = "" ∨ req.gameName = "" ∨ req.tagLine = "") := by
      simp [h1, h2, h3]
    constructor
    · simp only [GetSummonerHandler, if_neg hcond]
      cases proxy.summonerByRiotID req.region req.gameName req.tagLine <;> rfl
    · intro s hs
      simp [GetSummonerHandler, if_neg hcond, hs]
  · intro proxy req hp h1 h2 h3
    have hp' : ¬ req.puuid ≠ "" := by simp [hp]
    have hcond : ¬ (req.region = "" ∨ req.gameName = "" ∨ req.tagLine = "") := by
      simp [h1, h2, h3]
    have hgen : (GetMatchesHandler proxy (some req)).calls =
        [.matchesByRiotID req.region req.gameName req.tagLine
           (if req.count ≤ 0 then 20 else req.count)] := by
      simp only [GetMatchesHandler, if_neg hp', if_neg hcond]
      cases proxy.matchesByRiotID req.region req.gameName req.tagLine
        (if req.count ≤ 0 then 20 else req.count) <;> rfl
    refine ⟨hgen, ?_, ?_⟩
    · intro hc
      have h20 : (if req.count ≤ 0 then (20 : Int) else req.count) = 20 :=
        if_pos (by omega)
      rw [hgen, h20]
    · intro hc
      have hraw : (if req.count ≤ 0 then (20 : Int) else req.count) = req.count :=
        if_neg (by omega)
      rw [hgen, hraw]
  · intro proxy req hp h1
    have hgen : (GetMatchesHandler proxy (some req)).calls =
        [.matchesByPUUID req.region req.puuid
           (if req.count ≤ 0 then 20 else req.count)] := by
      simp only [GetMatchesHandler, if_pos hp, if_neg h1]
      cases proxy.matchesByPUUID req.region req.puuid
        (if req.count ≤ 0 then 20 else req.count) <;> rfl
    refine ⟨hgen, ?_, ?_⟩
    · intro hc
      have h20 : (if req.count ≤ 0 then (20 : Int) else req.count) = 20 :=
        if_pos (by omega)
      rw [hgen, h20]
    · intro hc
      have hraw : (if req.count ≤ 0 then (20 : Int) else req.count) = req.count :=
        if_neg (by omega)
      rw [hgen, hraw]
  · intro proxy req h1 h2 h3
    have hcond : ¬ (req.region = "" ∨ req.gameName = "" ∨ req.tagLine = "") := by
      simp [h1, h2, h3]
    constructor
    · simp only [AnalyzePlayerHandler, if_neg hcond]
      cases proxy.summonerByRiotID req.region req.gameName req.tagLine with
      | error e => rfl
      | ok s =>
        dsimp only
        cases proxy.matchesByPUUID req.region s.puuid 20 with
        | error e => rfl
        | ok ms =>
          dsimp only
          cases proxy.analyze s ms <;> rfl
    · intro s ms a hs hm ha
      simp [AnalyzePlayerHandler, if_neg hcond, hs, hm, ha]
  · intro proxy hnever e
    obtain ⟨hS, hM, hP, hA⟩ := hnever
    refine ⟨?_, ?_, ?_⟩
    · intro b hresp
      cases b with
      | none =>
        simp [GetSummonerHandler, InvalidRequestBody] at hresp
        simp [← hresp]
      | some req =>
        by_cases hcond : req.region = "" ∨ req.gameName = "" ∨ req.tagLine = ""
        · simp [GetSummonerHandler, if_pos hcond, MissingFields] at hresp
          simp [← hresp]
        · simp only [GetSummonerHandler, if_neg hcond] at hresp
          cases hs : proxy.summonerByRiotID req.region req.gameName req.tagLine with
          | error e2 =>
            rw [hs] at hresp
            simp at hresp
            exact hresp ▸ hS _ _ _ _ hs
          | ok s =>
            rw [hs] at hresp
            simp at hresp
    · intro b hresp
      cases b with
      | none =>
        simp [GetMatchesHandler, InvalidRequestBody] at hresp
        simp [← hresp]
      | some req =>
        by_cases hp : req.puuid ≠ ""
        · by_cases h1 : req.region = ""
          · simp [GetMatchesHandler, if_pos hp, if_pos h1, MissingFields] at hresp
            simp [← hresp]
          · simp only [GetMatchesHandler, if_pos hp, if_neg h1] at hresp
            cases hm : proxy.matchesByPUUID req.region req.puuid
                (if req.count ≤ 0 then 20 else req.count) with
            | error e2 =>
              rw [hm] at hresp
              simp at hresp
              exact hresp ▸ hP _ _ _ _ hm
            | ok ms =>
              rw [hm] at hresp
              simp at hresp
        · by_cases hcond : req.region = "" ∨ req.gameName = "" ∨ req.tagLine = ""
          · simp [GetMatchesHandler, if_neg hp, if_pos hcond, MissingFields] at hresp
            simp [← hresp]
          · simp only [GetMatchesHandler, if_neg hp, if_neg hcond] at hresp
            cases hm : proxy.matchesByRiotID req.region req.gameName req.tagLine
                (if req.count ≤ 0 then 20 else req.count) with
            | error e2 =>
              rw [hm] at hresp
              simp at hresp
              exact hresp ▸ hM _ _ _ _ _ hm
            | ok ms =>
              rw [hm] at hresp
              simp at hresp
    · intro b hresp
      cases b with
      | none =>
        simp [AnalyzePlayerHandler, InvalidRequestBody] at hresp
        simp [← hresp]
      | some req =>
        by_cases hcond : req.region = "" ∨ req.gameName = "" ∨ req.tagLine = ""
        · simp [AnalyzePlayerHandler, if_pos hcond, MissingFields] at hresp
          simp [← hresp]
        · simp only [AnalyzePlayerHandler, if_neg hcond] at hresp
          cases hs : proxy.summonerByRiotID req.region req.gameName req.tagLine with
          | error e2 =>
            rw [hs] at hresp
            simp at hresp
            exact hresp ▸ hS _ _ _ _ hs
          | ok s =>
            rw [hs] at hresp
            dsimp only at hresp
            cases hm : proxy.matchesByPUUID req.region s.puuid 20 with
            | error e2 =>
              rw [hm] at hresp
              simp at hresp
              exact hresp ▸ hP _ _ _ _ hm
            | ok ms =>
              rw [hm] at hresp
              dsimp only at hresp
              cases ha : proxy.analyze s ms with
              | error e2 =>
                rw [ha] at hresp
                simp at hresp
                exact hresp ▸ hA _ _ _ ha
              | ok a =>
                rw [ha] at hresp
                simp at hresp
  · intro proxy req hcond
    simp [GetSummonerHandler, if_pos hcond]

/-- C10 (witness): a malformed but non-empty summoner request (invalid
region, too-short name) is forwarded verbatim; a negative count is replaced
by 20 while the out-of-range count 101 is forwarded verbatim on both match
paths; the analyze pipeline forwards the malformed values to its first
backend call; and the test double (which never fails) never yields
ValidationFailed from any handler. -/
theorem handlers_skip_validation_witness :
    (GetSummonerHandler testOracle (some ⟨"zzz", "ab", "ab"⟩)).calls =
      [.summonerByRiotID "zzz" "ab" "ab"] ∧
    (GetMatchesHandler testOracle (some ⟨"na", "TestPlayer", "NA1", "", -1⟩)).calls =
      [.matchesByRiotID "na" "TestPlayer" "NA1" 20] ∧
    (GetMatchesHandler testOracle (some ⟨"na", "TestPlayer", "NA1", "", 101⟩)).calls =
      [.matchesByRiotID "na" "TestPlayer" "NA1" 101] ∧
    (GetMatchesHandler testOracle (some ⟨"na", "", "", "P1", 101⟩)).calls =
      [.matchesByPUUID "na" "P1" 101] ∧
    (AnalyzePlayerHandler testOracle (some ⟨"zzz", "ab", "ab"⟩)).calls.head? =
      some (.summonerByRiotID "zzz" "ab" "ab") ∧
    ((GetSummonerHandler testOracle (some ⟨"zzz", "ab", "ab"⟩)).response =
        .failure (NewAPIError .validationFailed "x" 400) →
      (NewAPIError .validationFailed "x" 400).code ≠ .validationFailed) ∧
    GetSummonerHandler testOracle (some ⟨"", "ab", "ab"⟩) =
      ⟨[], .failure
        (MissingFields "region, gameName, and tagLine are required")⟩ :=
  ⟨(handlers_skip_validation.1 testOracle ⟨"zzz", "ab", "ab"⟩
      (by decide) (by decide) (by decide)).1,
   (handlers_skip_validation.2.1 testOracle ⟨"na", "TestPlayer", "NA1", "", -1⟩
     (by decide) (by decide) (by decide) (by decide)).2.1 (by decide),
   (handlers_skip_validation.2.1 testOracle ⟨"na", "TestPlayer", "NA1", "", 101⟩
     (by decide) (by decide) (by decide) (by decide)).2.2 (by decide),
   (handlers_skip_validation.2.2.1 testOracle ⟨"na", "", "", "P1", 101⟩
     (by decide) (by decide)).2.2 (by decide),
   (handlers_skip_validation.2.2.2.1 testOracle ⟨"zzz", "ab", "ab"⟩
     (by decide) (by decide) (by decide)).1,
   (handlers_skip_validation.2.2.2.2.1 testOracle
     ⟨fun r n t e h => by simp [testOracle] at h,
      fun r n t c e h => by simp [testOracle] at h,
      fun r p c e h => by simp [testOracle] at h,
      fun s ms e h => by simp [testOracle] at h⟩
     (NewAPIError .validationFailed "x" 400)).1
     (some ⟨"zzz", "ab", "ab"⟩),
   handlers_skip_validation.2.2.2.2.2 testOracle ⟨"", "ab", "ab"⟩
     (Or.inl (by decide))⟩

end OpglGateway
